import Mathlib

/-!
Shallow embedding of the browser-manager subsystem of pydoll-mcp
(src/pydoll_mcp/browser_manager.py) and proofs about its behaviour.

Python dicts are modelled as insertion-ordered association lists with
unique keys; `time.time()` values and float durations are modelled as
rationals; external effects (closing tabs, stopping processes) are
modelled by recording the instance ids whose `cleanup` was invoked.
-/

namespace PydollMCP

/-- External tab handle (opaque object provided by the pydoll library). -/
abbrev TabHandle := Nat

/-- External browser-process handle (opaque object provided by pydoll). -/
abbrev BrowserHandle := Nat

/-- Lookup `d.get(k)` on an insertion-ordered Python dict. -/
def dictGet {α : Type} (l : List (String × α)) (k : String) : Option α :=
  (l.find? (fun p => decide (p.1 = k))).map (fun p => p.2)

/-- Assignment `d[k] = v` on a Python dict: replace in place if the key exists,
otherwise append (insertion order). -/
def dictInsert {α : Type} (l : List (String × α)) (k : String) (v : α) :
    List (String × α) :=
  if l.any (fun p => decide (p.1 = k)) then
    l.map (fun p => if p.1 = k then (k, v) else p)
  else l ++ [(k, v)]

/-- Deletion `del d[k]` on a Python dict (keys are unique, so removing every entry
with key `k` coincides with deleting the single entry). -/
def dictErase {α : Type} (l : List (String × α)) (k : String) :
    List (String × α) :=
  l.filter (fun p => decide (p.1 ≠ k))

/-- Append on a `collections.deque` with a maxlen bound: drop from the front once
the bound is exceeded. -/
def dequeAppend (l : List ℚ) (maxlen : Nat) (x : ℚ) : List ℚ :=
  let l' := l ++ [x]
  if maxlen < l'.length then l'.drop (l'.length - maxlen) else l'

/-- Class `BrowserMetrics`: rolling per-instance statistics. -/
structure BrowserMetrics where
  max_history : Nat
  navigation_times : List ℚ
  error_count : Nat
  total_operations : Nat
deriving DecidableEq, Repr

/-- Constructor of `BrowserMetrics` (default max_history is 100). -/
def BrowserMetrics.init (max_history : Nat) : BrowserMetrics :=
  { max_history := max_history
    navigation_times := []
    error_count := 0
    total_operations := 0 }

/-- Method `BrowserMetrics.record_navigation`. -/
def BrowserMetrics.record_navigation (m : BrowserMetrics) (duration : ℚ) :
    BrowserMetrics :=
  { m with
    navigation_times := dequeAppend m.navigation_times m.max_history duration
    total_operations := m.total_operations + 1 }

/-- Method `BrowserMetrics.get_avg_navigation_time`. -/
def BrowserMetrics.get_avg_navigation_time (m : BrowserMetrics) : ℚ :=
  if m.navigation_times = [] then 0
  else m.navigation_times.sum / m.navigation_times.length

/-- Method `BrowserMetrics.record_error`. -/
def BrowserMetrics.record_error (m : BrowserMetrics) : BrowserMetrics :=
  { m with error_count := m.error_count + 1 }

/-- Method `BrowserMetrics.get_error_rate`. -/
def BrowserMetrics.get_error_rate (m : BrowserMetrics) : ℚ :=
  if m.total_operations = 0 then 0
  else ((m.error_count : ℚ) / (m.total_operations : ℚ)) * 100

/-- The `stats` counter record of a `BrowserInstance`. -/
structure InstanceStats where
  total_tabs_created : Nat
  total_navigations : Nat
  total_screenshots : Nat
  total_scripts_executed : Nat
deriving DecidableEq, Repr

/-- Class `BrowserInstance`: one managed browser process with metadata. -/
structure BrowserInstance where
  browser : BrowserHandle
  browser_type : String
  instance_id : String
  created_at : ℚ
  tabs : List (String × TabHandle)
  active_tab_id : Option String
  is_active : Bool
  last_activity : ℚ
  metrics : BrowserMetrics
  stats : InstanceStats
deriving DecidableEq, Repr

/-- Constructor of `BrowserInstance` (browser, browser_type, instance_id) at
wall-clock time `now`. -/
def BrowserInstance.init (browser : BrowserHandle) (browser_type : String)
    (instance_id : String) (now : ℚ) : BrowserInstance :=
  { browser := browser
    browser_type := browser_type
    instance_id := instance_id
    created_at := now
    tabs := []
    active_tab_id := none
    is_active := true
    last_activity := now
    metrics := BrowserMetrics.init 100
    stats := ⟨0, 0, 0, 0⟩ }

/-- Method `BrowserInstance.get_idle_time` at wall-clock time `now`. -/
def BrowserInstance.get_idle_time (i : BrowserInstance) (now : ℚ) : ℚ :=
  now - i.last_activity

/-- Method `BrowserInstance.cleanup`: closes every tab (external effect), clears
the tab map, stops the underlying process (external effect) and marks the
instance not-live. Exceptions are swallowed, so this never raises. -/
def BrowserInstance.cleanup (i : BrowserInstance) : BrowserInstance :=
  { i with tabs := [], is_active := false }

/-- Class `BrowserPool`: bounded cache of reusable instances. Membership in the
Python set `in_use` is object identity, modelled here by the (unique)
instance id. -/
structure BrowserPool where
  max_size : Nat
  available : List BrowserInstance
  in_use : List BrowserInstance
deriving DecidableEq, Repr

/-- Constructor of `BrowserPool` with the given max_size. -/
def BrowserPool.init (max_size : Nat) : BrowserPool :=
  { max_size := max_size, available := [], in_use := [] }

/-- Method `BrowserPool.acquire`: pop the first available instance (FIFO) into
the in-use set, or return `none`. -/
def BrowserPool.acquire (p : BrowserPool) : Option BrowserInstance × BrowserPool :=
  match p.available with
  | [] => (none, p)
  | i :: rest => (some i, { p with available := rest, in_use := p.in_use ++ [i] })

/-- Membership test `instance in self.in_use`. -/
def BrowserPool.tracked (p : BrowserPool) (i : BrowserInstance) : Bool :=
  p.in_use.any (fun j => decide (j.instance_id = i.instance_id))

/-- Method `BrowserPool.release`: the whole body runs only when the instance is
tracked in `in_use`; it is then removed and either retained (capacity left
and still live) or cleaned up. The second component lists the ids of
instances whose `cleanup` was invoked. -/
def BrowserPool.release (p : BrowserPool) (i : BrowserInstance) :
    BrowserPool × List String :=
  if p.tracked i then
    let in_use' := p.in_use.filter (fun j => decide (j.instance_id ≠ i.instance_id))
    if p.available.length < p.max_size && i.is_active then
      ({ p with available := p.available ++ [i], in_use := in_use' }, [])
    else
      ({ p with in_use := in_use' }, [i.instance_id])
  else (p, [])

/-- Method `BrowserPool.clear`: clean up every held instance and empty both sets. -/
def BrowserPool.clear (p : BrowserPool) : BrowserPool × List String :=
  ({ p with available := [], in_use := [] },
   p.available.map (fun i => i.instance_id) ++ p.in_use.map (fun i => i.instance_id))

/-- Releasing a list of instances one after the other, accumulating the
cleanup trace. -/
def BrowserPool.releaseAll (p : BrowserPool) (is_ : List BrowserInstance)
    (acc : List String) : BrowserPool × List String :=
  is_.foldl (fun a i =>
    let r := a.1.release i
    (r.1, a.2 ++ r.2)) (p, acc)

/-- The mutable `global_stats` record of the manager. -/
structure GlobalStats where
  total_browsers_created : Nat
  total_browsers_destroyed : Nat
  total_errors : Nat
  cache_hits : Nat
  cache_misses : Nat
deriving DecidableEq, Repr

/-- Class `ChromiumOptions` from the pydoll library: an ordered argument list
plus an optional binary location. -/
structure ChromiumOptions where
  arguments : List String
  binary_location : Option String
deriving DecidableEq, Repr

/-- Call `options.add_argument(arg)` wrapped in the source's
`try/except: pass`: pydoll raises when the argument already exists and
the manager skips it, so the effective semantics is append-if-absent. -/
def ChromiumOptions.add_argument (o : ChromiumOptions) (a : String) :
    ChromiumOptions :=
  if o.arguments.contains a then o else { o with arguments := o.arguments ++ [a] }

/-- The keyword arguments accepted by `_get_browser_options`. A `none`
field models the key being absent from `kwargs` (Python distinguishes an
absent key from an explicitly supplied default value). -/
structure Kwargs where
  headless : Option Bool
  window_width : Option Nat
  window_height : Option Nat
  user_data_dir : Option String
  proxy : Option String
  binary_path : Option String
  custom_args : Option (List String)
deriving DecidableEq, Repr

/-- The environment variables consulted by `_get_browser_options`,
already parsed the way the source parses them (`"true"` comparisons,
`int(...)` conversions). -/
structure Env where
  headless : Bool
  window_width : Nat
  window_height : Nat
  stealth_mode : Bool
  disable_images : Bool
  proxy : Option String
  binary_path : Option String
  user_data_dir : Option String
  os_is_windows : Bool
deriving DecidableEq, Repr

/-- Python truthiness of an optional string (`None` and `""` are falsy). -/
def strTruthy : Option String → Bool
  | none => false
  | some s => decide (s ≠ "")

/-- The `stealth_args` list from the source. -/
def stealth_args : List String :=
  ["--disable-web-security",
   "--disable-features=VizDisplayCompositor",
   "--disable-extensions",
   "--disable-background-timer-throttling",
   "--disable-backgrounding-occluded-windows",
   "--disable-renderer-backgrounding",
   "--disable-ipc-flooding-protection",
   "--disable-component-extensions-with-background-pages",
   "--disable-default-apps",
   "--disable-sync",
   "--disable-background-networking",
   "--disable-client-side-phishing-detection"]

/-- The `stability_args` list from the source. -/
def stability_args : List String :=
  ["--disable-dev-shm-usage", "--no-sandbox", "--disable-setuid-sandbox"]

/-- The `performance_args` list from the source. -/
def performance_args : List String :=
  ["--memory-pressure-off",
   "--max_old_space_size=4096",
   "--aggressive-cache-discard",
   "--disable-background-mode",
   "--disable-hang-monitor",
   "--disable-prompt-on-repost",
   "--disable-domain-reliability"]

/-- The construction part of `_get_browser_options` (everything after the
cache miss), mirroring the source order: headless, window size, stealth,
stability, image disabling, Windows-specific arguments, performance
arguments, the kwargs-only user-data-dir pass, proxy, binary path, the
kwargs-or-env user-data-dir pass, and custom arguments. -/
def buildOptions (env : Env) (kwargs : Kwargs) : ChromiumOptions :=
  let options : ChromiumOptions := { arguments := [], binary_location := none }
  let headless := kwargs.headless.getD env.headless
  let window_width := kwargs.window_width.getD env.window_width
  let window_height := kwargs.window_height.getD env.window_height
  let options := if headless then options.add_argument "--headless=new" else options
  let options := options.add_argument
    ("--window-size=" ++ toString window_width ++ "," ++ toString window_height)
  let options := if env.stealth_mode then
      stealth_args.foldl ChromiumOptions.add_argument options
    else options
  let options := stability_args.foldl ChromiumOptions.add_argument options
  let options := if env.disable_images then
      options.add_argument "--disable-images"
    else options
  let options := if env.os_is_windows then
      ((((options.add_argument
          "--disable-features=VizDisplayCompositor,VizHitTestSurfaceLayer").add_argument
          "--disable-backgrounding-occluded-windows").add_argument
          "--disable-renderer-backgrounding").add_argument
          "--force-device-scale-factor=1")
    else options
  let options := performance_args.foldl ChromiumOptions.add_argument options
  let options := match kwargs.user_data_dir with
    | some d => if d ≠ "" then options.add_argument ("--user-data-dir=" ++ d) else options
    | none => options
  let proxy := match kwargs.proxy with
    | some px => some px
    | none => env.proxy
  let options := match proxy with
    | some px => if px ≠ "" then options.add_argument ("--proxy-server=" ++ px) else options
    | none => options
  let binary_path := match kwargs.binary_path with
    | some b => some b
    | none => env.binary_path
  let options := match binary_path with
    | some b => if b ≠ "" then { options with binary_location := some b } else options
    | none => options
  let user_data_dir := match kwargs.user_data_dir with
    | some d => some d
    | none => env.user_data_dir
  let options := match user_data_dir with
    | some d => if d ≠ "" then options.add_argument ("--user-data-dir=" ++ d) else options
    | none => options
  (kwargs.custom_args.getD []).foldl ChromiumOptions.add_argument options

/-- The error taxonomy of the spec. The source raises `RuntimeError` /
`ValueError` with messages; each raise site is mapped to its taxonomy
name. -/
inductive BMError where
  | dependencyUnavailable : BMError
  | resourceExhausted (limit : Nat) : BMError
  | invalidArgument (message : String) : BMError
  | internalInvariantViolation (message : String) : BMError
  | browserStartFailure (message : String) : BMError
  | notFound (message : String) : BMError
deriving DecidableEq, Repr

/-- Class `BrowserManager` state. The periodic cleanup task is modelled as
`none` (never started) or `some cancelled`. -/
structure BrowserManager where
  browsers : List (String × BrowserInstance)
  default_browser_type : String
  max_browsers : Nat
  max_tabs_per_browser : Nat
  cleanup_interval : Nat
  idle_timeout : ℚ
  browser_pool : BrowserPool
  global_stats : GlobalStats
  cleanup_task : Option Bool
  is_running : Bool
  options_cache : List (Kwargs × ChromiumOptions)
deriving DecidableEq, Repr

/-- Method `_get_browser_options`: consult the options cache keyed by the
supplied kwargs (the source keys on `hash(frozenset(...))` of the
canonicalized kwargs; the key is modelled by the kwargs record itself);
on hit bump `cache_hits` and return the cached object, on miss build,
cache and bump `cache_misses`. -/
def BrowserManager.get_browser_options (m : BrowserManager) (env : Env)
    (kwargs : Kwargs) : ChromiumOptions × BrowserManager :=
  match (m.options_cache.find? (fun p => decide (p.1 = kwargs))).map (fun p => p.2) with
  | some cached =>
    (cached,
     { m with global_stats :=
        { m.global_stats with cache_hits := m.global_stats.cache_hits + 1 } })
  | none =>
    let options := buildOptions env kwargs
    (options,
     { m with
        global_stats :=
          { m.global_stats with cache_misses := m.global_stats.cache_misses + 1 }
        options_cache := m.options_cache ++ [(kwargs, options)] })

/-- Method `destroy_browser`: absent id is a logged no-op; otherwise release the
instance to the pool, delete it from the active map and bump the
destroyed counter. The second component is the cleanup trace. -/
def BrowserManager.destroy_browser (m : BrowserManager) (browser_id : String) :
    BrowserManager × List String :=
  match dictGet m.browsers browser_id with
  | none => (m, [])
  | some inst =>
    let r := m.browser_pool.release inst
    ({ m with
        browser_pool := r.1
        browsers := dictErase m.browsers browser_id
        global_stats :=
          { m.global_stats with
            total_browsers_destroyed := m.global_stats.total_browsers_destroyed + 1 } },
     r.2)

/-- A `for browser_id in ids: destroy_browser(browser_id)` loop,
accumulating the cleanup trace. -/
def BrowserManager.destroyMany (m : BrowserManager) (ids : List String)
    (acc : List String) : BrowserManager × List String :=
  ids.foldl (fun a browser_id =>
    let s := a.1.destroy_browser browser_id
    (s.1, a.2 ++ s.2)) (m, acc)

/-- Method `_cleanup_idle_browsers` at wall-clock time `now`: snapshot the ids of
instances whose idle time exceeds `idle_timeout`, then destroy each. -/
def BrowserManager.cleanup_idle_browsers (m : BrowserManager) (now : ℚ) :
    BrowserManager × List String :=
  let idle_browsers :=
    (m.browsers.filter (fun p => decide (m.idle_timeout < p.2.get_idle_time now))).map
      (fun p => p.1)
  m.destroyMany idle_browsers []

/-- Method `cleanup_all`: destroy every active instance, then clear the map. -/
def BrowserManager.cleanup_all (m : BrowserManager) : BrowserManager × List String :=
  let browser_ids := m.browsers.map (fun p => p.1)
  let r := m.destroyMany browser_ids []
  ({ r.1 with browsers := [] }, r.2)

/-- Method `stop`: mark not-running, cancel and await the periodic task
(swallowing the cancellation), destroy all active instances and clear the
pool. Total: it never raises. -/
def BrowserManager.stop (m : BrowserManager) : BrowserManager × List String :=
  let m₀ := { m with is_running := false }
  let m₁ := match m₀.cleanup_task with
    | some _ => { m₀ with cleanup_task := some true }
    | none => m₀
  let r := m₁.cleanup_all
  let c := r.1.browser_pool.clear
  ({ r.1 with browser_pool := c.1 }, r.2 ++ c.2)

/-- Method `get_active_tab_id`: return the cached active tab id if it is still a
key of the tab map; otherwise adopt the first tab key (repairing the
stale pointer in place), else `none`. The Python truthiness test
`if instance.active_tab_id and ...` treats `None` as absent; generated
tab ids are never the (also falsy) empty string. Returns the id together
with the updated manager, since the repair mutates the stored instance. -/
def BrowserManager.get_active_tab_id (m : BrowserManager) (browser_id : String) :
    Option String × BrowserManager :=
  match dictGet m.browsers browser_id with
  | none => (none, m)
  | some inst =>
    match inst.active_tab_id with
    | some atid =>
      if (dictGet inst.tabs atid).isSome then (some atid, m)
      else
        match inst.tabs with
        | [] => (none, m)
        | t :: _ =>
          (some t.1,
           { m with browsers :=
              dictInsert m.browsers browser_id { inst with active_tab_id := some t.1 } })
    | none =>
      match inst.tabs with
      | [] => (none, m)
      | t :: _ =>
        (some t.1,
         { m with browsers :=
            dictInsert m.browsers browser_id { inst with active_tab_id := some t.1 } })

/-- Method `get_tab_with_fallback`: resolve the active tab when no tab id is
supplied (NotFound when none exists); fall back from a missing supplied
tab id to the active tab; return the resolved tab handle together with
the tab id actually used. `ensure_tab_methods` only patches stub methods
onto the tab object and returns it, i.e. the identity on the handle. -/
def BrowserManager.get_tab_with_fallback (m : BrowserManager) (browser_id : String)
    (tab_id? : Option String) :
    Except BMError ((TabHandle × String) × BrowserManager) :=
  match dictGet m.browsers browser_id with
  | none => .error (.notFound ("Browser " ++ browser_id ++ " not found"))
  | some _ =>
    let step : Option String × BrowserManager :=
      match tab_id? with
      | none => m.get_active_tab_id browser_id
      | some t => (some t, m)
    match step.1 with
    | none => .error (.notFound ("No active tab found in browser " ++ browser_id))
    | some tab_id =>
      let m₁ := step.2
      match dictGet m₁.browsers browser_id with
      | none => .error (.notFound ("Browser " ++ browser_id ++ " not found"))
      | some inst =>
        match dictGet inst.tabs tab_id with
        | some tab => .ok ((tab, tab_id), m₁)
        | none =>
          let fb := m₁.get_active_tab_id browser_id
          let m₂ := fb.2
          let fallback : Option (TabHandle × String) :=
            match fb.1 with
            | some atid =>
              if atid ≠ tab_id then
                match dictGet m₂.browsers browser_id with
                | some inst₂ =>
                  match dictGet inst₂.tabs atid with
                  | some tab => some (tab, atid)
                  | none => none
                | none => none
              else none
            | none => none
          match fallback with
          | some (tab, used_id) => .ok ((tab, used_id), m₂)
          | none =>
            .error (.notFound
              ("Tab " ++ tab_id ++ " not found in browser " ++ browser_id))

/-- The external, nondeterministic inputs consumed by one `create_browser`
call: library availability, the wall-clock time, the generated ids, the
optional temporary user-data directory from
`_check_existing_chrome_processes`, and the outcome of constructing and
starting the external browser (`Except` message on exception, otherwise
the process handle, the optional initial tab and the startup duration). -/
structure CreateEnv where
  pydoll_available : Bool
  now : ℚ
  browser_id : String
  tab_id : String
  temp_user_data_dir : Option String
  start_result : Except String (BrowserHandle × Option TabHandle × ℚ)
deriving Repr

/-- Bump `global_stats["total_errors"]` (the `except` block of
`create_browser`). -/
def BrowserManager.bump_errors (m : BrowserManager) : BrowserManager :=
  { m with global_stats :=
      { m.global_stats with total_errors := m.global_stats.total_errors + 1 } }

/-- The outcome of a `create_browser` call: the returned instance or
error, the manager state afterwards, and the ids of instances whose
`cleanup` ran during opportunistic idle reclamation. -/
structure CreateResult where
  result : Except BMError BrowserInstance
  state : BrowserManager
  cleaned : List String
deriving Repr

/-- The `try` block of `create_browser`, after the browser type has been
resolved: kwargs adjustment from the Chrome-process check, options
building (the cache is consulted before the browser-type dispatch, as in
the source), type dispatch, external start, metrics recording of the
startup duration, initial-tab registration (fatal when the start returned
no tab), and registration of the new instance. Exceptions raised inside
the block bump the global error counter. -/
def BrowserManager.create_browser_start (m : BrowserManager) (env : Env)
    (cenv : CreateEnv) (browser_type : String) (kwargs : Kwargs)
    (cleaned : List String) : CreateResult :=
  let kwargs :=
    if browser_type = "chrome" && !(strTruthy kwargs.user_data_dir) then
      match cenv.temp_user_data_dir with
      | some d => { kwargs with user_data_dir := some d }
      | none => kwargs
    else kwargs
  let ob := m.get_browser_options env kwargs
  let m₂ := ob.2
  if browser_type ≠ "chrome" ∧ browser_type ≠ "edge" then
    ⟨.error (.invalidArgument ("Unsupported browser type: " ++ browser_type)),
     m₂.bump_errors, cleaned⟩
  else
    match cenv.start_result with
    | .error msg =>
      ⟨.error (.browserStartFailure msg), m₂.bump_errors, cleaned⟩
    | .ok (handle, initial_tab, startup_time) =>
      let inst₀ := BrowserInstance.init handle browser_type cenv.browser_id cenv.now
      let inst₁ :=
        { inst₀ with metrics := inst₀.metrics.record_navigation startup_time }
      match initial_tab with
      | some tab =>
        let inst₂ :=
          { inst₁ with
            tabs := dictInsert inst₁.tabs cenv.tab_id tab
            active_tab_id := some cenv.tab_id }
        ⟨.ok inst₂,
         { m₂ with
            browsers := dictInsert m₂.browsers cenv.browser_id inst₂
            global_stats :=
              { m₂.global_stats with
                total_browsers_created :=
                  m₂.global_stats.total_browsers_created + 1 } },
         cleaned⟩
      | none =>
        ⟨.error (.internalInvariantViolation
            "PyDoll browser.start() did not return a tab"),
         m₂.bump_errors, cleaned⟩

/-- Method `create_browser`: dependency check, pooled reuse (which bypasses the
capacity gate and does not re-register the instance), capacity check with
opportunistic idle reclamation and `ResourceExhausted` failure, then the
`try` block (`create_browser_start`) with the resolved browser type. -/
def BrowserManager.create_browser (m : BrowserManager) (env : Env)
    (cenv : CreateEnv) (browser_type? : Option String) (kwargs : Kwargs) :
    CreateResult :=
  if !cenv.pydoll_available then
    ⟨.error .dependencyUnavailable, m, []⟩
  else
    match m.browser_pool.acquire with
    | (some pooled, pool') => ⟨.ok pooled, { m with browser_pool := pool' }, []⟩
    | (none, _) =>
      let step : BrowserManager × List String :=
        if m.max_browsers ≤ m.browsers.length then
          m.cleanup_idle_browsers cenv.now
        else (m, [])
      let m₁ := step.1
      let cleaned := step.2
      if m₁.max_browsers ≤ m₁.browsers.length then
        ⟨.error (.resourceExhausted m₁.max_browsers), m₁, cleaned⟩
      else
        let browser_type := browser_type?.getD m.default_browser_type
        m₁.create_browser_start env cenv browser_type kwargs cleaned

/-- One `create_browser` call's inputs, for reasoning about call
sequences. -/
structure CreateArgs where
  env : Env
  cenv : CreateEnv
  browser_type : Option String
  kwargs : Kwargs

/-- A sequence of `create_browser` calls without intervening
`destroy_browser`, keeping only the evolving manager state. -/
def BrowserManager.createMany (m : BrowserManager) (calls : List CreateArgs) :
    BrowserManager :=
  calls.foldl (fun s c => (s.create_browser c.env c.cenv c.browser_type c.kwargs).state) m

/-- A manager in its freshly-constructed state, with the documented
default configuration (chrome, 3 browsers, 10 tabs, 300s interval,
1800s idle timeout). -/
def emptyManager : BrowserManager :=
  { browsers := []
    default_browser_type := "chrome"
    max_browsers := 3
    max_tabs_per_browser := 10
    cleanup_interval := 300
    idle_timeout := 1800
    browser_pool := BrowserPool.init 3
    global_stats := ⟨0, 0, 0, 0, 0⟩
    cleanup_task := none
    is_running := false
    options_cache := [] }

/-- A kwargs record with every key absent. -/
def emptyKwargs : Kwargs :=
  { headless := none
    window_width := none
    window_height := none
    user_data_dir := none
    proxy := none
    binary_path := none
    custom_args := none }

/-- The documented default environment (headless false, 1920×1080,
stealth on, images on, no proxy/binary/user-data-dir overrides). -/
def defaultEnv : Env :=
  { headless := false
    window_width := 1920
    window_height := 1080
    stealth_mode := true
    disable_images := false
    proxy := none
    binary_path := none
    user_data_dir := none
    os_is_windows := false }

/-! ## Concrete sample data used by witnesses and counterexamples -/

/-- A dead (not-live) instance that was never tracked as in-use. -/
def C1dead : BrowserInstance :=
  { BrowserInstance.init 0 "chrome" "browser_dead" 0 with is_active := false }

/-- An empty pool of capacity 3. -/
def C1pool : BrowserPool := BrowserPool.init 3

/-- Two live instances with distinct ids. -/
def C1insts : List BrowserInstance :=
  [BrowserInstance.init 0 "chrome" "browser_a" 0,
   BrowserInstance.init 1 "chrome" "browser_b" 0]

/-- A capacity-1 pool tracking both live instances as in-use. -/
def C1poolFull : BrowserPool :=
  { max_size := 1, available := [], in_use := C1insts }

/-- A manager already holding its maximum (1) of non-idle instances. -/
def C2full : BrowserManager :=
  { emptyManager with
    max_browsers := 1,
    browsers := [("browser_a", BrowserInstance.init 0 "chrome" "browser_a" 0)] }

/-- External inputs for a creation attempt at time 0 (so the existing
instance is not idle). -/
def C2cenv : CreateEnv :=
  { pydoll_available := true
    now := 0
    browser_id := "browser_b"
    tab_id := "tab_b"
    temp_user_data_dir := none
    start_result := .ok (1, some 8, 1) }

/-- External inputs for a successful start that returns an initial tab. -/
def C3cenv : CreateEnv :=
  { pydoll_available := true
    now := 0
    browser_id := "browser_1"
    tab_id := "tab_1"
    temp_user_data_dir := none
    start_result := .ok (0, some 7, 2) }

/-- External inputs for a start that succeeds but returns no tab. -/
def C3cenvNoTab : CreateEnv :=
  { pydoll_available := true
    now := 0
    browser_id := "browser_1"
    tab_id := "tab_1"
    temp_user_data_dir := none
    start_result := .ok (0, none, 2) }

/-- An instance whose only real tab is "tab_x", which is also active. -/
def C4inst : BrowserInstance :=
  { BrowserInstance.init 0 "chrome" "browser_1" 0 with
    tabs := [("tab_x", 5)], active_tab_id := some "tab_x" }

/-- A manager holding `C4inst`. -/
def C4mgr : BrowserManager :=
  { emptyManager with browsers := [("browser_1", C4inst)] }

/-- An instance whose active-tab pointer "tab_a" is stale (only "tab_b"
remains in the tab map). -/
def C6inst : BrowserInstance :=
  { BrowserInstance.init 0 "chrome" "browser_1" 0 with
    tabs := [("tab_b", 2)], active_tab_id := some "tab_a" }

/-- A manager holding `C6inst`. -/
def C6mgr : BrowserManager :=
  { emptyManager with browsers := [("browser_1", C6inst)] }

/-- A running manager with a live periodic-cleanup task. -/
def C7mgr : BrowserManager :=
  { emptyManager with cleanup_task := some false, is_running := true }

/-- Kwargs differing from `emptyKwargs` in the window width. -/
def C8kwargs : Kwargs := { emptyKwargs with window_width := some 800 }

/-- Kwargs explicitly passing the default window width of `defaultEnv`. -/
def C10kwargs : Kwargs := { emptyKwargs with window_width := some 1920 }

/-- An environment with a different window width than `defaultEnv`. -/
def C10env : Env := { defaultEnv with window_width := 1280 }

/-! ## Helper lemmas about the dictionary model -/

theorem dictGet_dictErase {α : Type} (l : List (String × α)) (k : String) :
    dictGet (dictErase l k) k = none := by
  simp only [dictGet, dictErase, Option.map_eq_none']
  rw [List.find?_eq_none]
  intro x hx
  have h := (List.mem_filter.mp hx).2
  simp only [decide_eq_true_eq] at h ⊢
  exact h

theorem dictGet_dictInsert_self {α : Type} (l : List (String × α)) (k : String)
    (v : α) : dictGet (dictInsert l k v) k = some v := by
  induction l with
  | nil => simp [dictInsert, dictGet, List.find?]
  | cons p t ih =>
    by_cases h : p.1 = k
    · simp [dictInsert, List.any_cons, h, dictGet, List.find?]
    · by_cases ha : t.any (fun q => decide (q.1 = k)) = true
      · have ih' := ih
        simp only [dictInsert, ha, if_true] at ih'
        simp only [dictInsert, List.any_cons, h, decide_eq_true_eq, ha]
        simp only [decide_False, Bool.false_or, if_true, List.map_cons, if_neg h]
        simpa [dictGet, List.find?, h] using ih'
      · have ih' := ih
        simp only [dictInsert, ha, if_false, Bool.not_eq_true] at ih'
        simp only [dictInsert, List.any_cons, h, decide_eq_true_eq]
        simp only [decide_False, Bool.false_or, ha, if_false, List.cons_append]
        simpa [dictGet, List.find?, h] using ih'

theorem dictInsert_length_le {α : Type} (l : List (String × α)) (k : String)
    (v : α) : (dictInsert l k v).length ≤ l.length + 1 := by
  simp only [dictInsert]
  split <;> simp

theorem foldl_dictErase_eq_filter {α : Type} (ks : List String)
    (l : List (String × α)) :
    ks.foldl (fun acc k => dictErase acc k) l
      = l.filter (fun p => decide (p.1 ∉ ks)) := by
  induction ks generalizing l with
  | nil => simp
  | cons k ks ih =>
    simp only [List.foldl_cons]
    rw [ih]
    simp only [dictErase, List.filter_filter]
    apply List.filter_congr
    intro x _
    by_cases h1 : x.1 = k <;> by_cases h2 : x.1 ∈ ks <;> simp [h1, h2]

/-! ## Helper lemmas about destruction loops -/

theorem destroy_browser_browsers (m : BrowserManager) (browser_id : String) :
    (m.destroy_browser browser_id).1.browsers = dictErase m.browsers browser_id := by
  simp only [BrowserManager.destroy_browser]
  split
  · rename_i h
    symm
    simp only [dictErase]
    rw [List.filter_eq_self]
    intro p hp
    simp only [decide_eq_true_eq]
    intro hk
    simp only [dictGet, Option.map_eq_none'] at h
    rw [List.find?_eq_none] at h
    exact absurd (by simpa using hk) (h p hp)
  · rfl

theorem destroy_browser_absent (m : BrowserManager) (browser_id : String)
    (h : dictGet m.browsers browser_id = none) :
    m.destroy_browser browser_id = (m, []) := by
  simp [BrowserManager.destroy_browser, h]

theorem destroy_browser_frame (m : BrowserManager) (browser_id : String) :
    (m.destroy_browser browser_id).1.is_running = m.is_running ∧
    (m.destroy_browser browser_id).1.cleanup_task = m.cleanup_task ∧
    (m.destroy_browser browser_id).1.max_browsers = m.max_browsers ∧
    (m.destroy_browser browser_id).1.idle_timeout = m.idle_timeout ∧
    (m.destroy_browser browser_id).1.default_browser_type = m.default_browser_type ∧
    (m.destroy_browser browser_id).1.options_cache = m.options_cache ∧
    (m.destroy_browser browser_id).1.browser_pool.max_size
      = m.browser_pool.max_size := by
  simp only [BrowserManager.destroy_browser]
  split
  · simp
  · refine ⟨rfl, rfl, rfl, rfl, rfl, rfl, ?_⟩
    simp only [BrowserPool.release]
    split
    · split <;> rfl
    · rfl

theorem destroy_browser_pool_of_no_in_use (m : BrowserManager) (browser_id : String)
    (h : m.browser_pool.in_use = []) :
    (m.destroy_browser browser_id).1.browser_pool = m.browser_pool ∧
    (m.destroy_browser browser_id).2 = [] := by
  simp only [BrowserManager.destroy_browser]
  split
  · exact ⟨rfl, rfl⟩
  · simp [BrowserPool.release, BrowserPool.tracked, h]

theorem destroyMany_browsers (ids : List String) :
    ∀ (m : BrowserManager) (acc : List String),
      (m.destroyMany ids acc).1.browsers
        = ids.foldl (fun l k => dictErase l k) m.browsers := by
  induction ids with
  | nil => intro m acc; rfl
  | cons i ids ih =>
    intro m acc
    simp only [BrowserManager.destroyMany, List.foldl_cons] at *
    rw [ih]
    rw [destroy_browser_browsers]

theorem destroyMany_frame (ids : List String) :
    ∀ (m : BrowserManager) (acc : List String),
      (m.destroyMany ids acc).1.is_running = m.is_running ∧
      (m.destroyMany ids acc).1.cleanup_task = m.cleanup_task ∧
      (m.destroyMany ids acc).1.max_browsers = m.max_browsers ∧
      (m.destroyMany ids acc).1.idle_timeout = m.idle_timeout ∧
      (m.destroyMany ids acc).1.default_browser_type = m.default_browser_type ∧
      (m.destroyMany ids acc).1.options_cache = m.options_cache ∧
      (m.destroyMany ids acc).1.browser_pool.max_size
        = m.browser_pool.max_size := by
  induction ids with
  | nil => intro m acc; exact ⟨rfl, rfl, rfl, rfl, rfl, rfl, rfl⟩
  | cons i ids ih =>
    intro m acc
    simp only [BrowserManager.destroyMany, List.foldl_cons] at *
    obtain ⟨h1, h2, h3, h4, h5, h6, h7⟩ := ih (m.destroy_browser i).1 (acc ++ (m.destroy_browser i).2)
    obtain ⟨g1, g2, g3, g4, g5, g6, g7⟩ := destroy_browser_frame m i
    exact ⟨h1.trans g1, h2.trans g2, h3.trans g3, h4.trans g4,
           h5.trans g5, h6.trans g6, h7.trans g7⟩

theorem destroyMany_pool_of_no_in_use (ids : List String) :
    ∀ (m : BrowserManager) (acc : List String),
      m.browser_pool.in_use = [] →
      (m.destroyMany ids acc).1.browser_pool = m.browser_pool ∧
      (m.destroyMany ids acc).2 = acc := by
  induction ids with
  | nil => intro m acc _; exact ⟨rfl, rfl⟩
  | cons i ids ih =>
    intro m acc h
    simp only [BrowserManager.destroyMany, List.foldl_cons] at *
    obtain ⟨g1, g2⟩ := destroy_browser_pool_of_no_in_use m i h
    obtain ⟨h1, h2⟩ := ih (m.destroy_browser i).1 (acc ++ (m.destroy_browser i).2)
      (by rw [g1]; exact h)
    refine ⟨h1.trans g1, ?_⟩
    rw [h2, g2, List.append_nil]

theorem destroyMany_browsers_length_le (ids : List String) (m : BrowserManager)
    (acc : List String) :
    (m.destroyMany ids acc).1.browsers.length ≤ m.browsers.length := by
  rw [destroyMany_browsers, foldl_dictErase_eq_filter]
  exact List.length_filter_le _ _

theorem cleanup_idle_browsers_spec (m : BrowserManager) (now : ℚ)
    (hnd : (m.browsers.map (fun p => p.1)).Nodup) :
    (m.cleanup_idle_browsers now).1.browsers
      = m.browsers.filter
          (fun p => !(decide (m.idle_timeout < p.2.get_idle_time now))) := by
  simp only [BrowserManager.cleanup_idle_browsers]
  rw [destroyMany_browsers, foldl_dictErase_eq_filter]
  apply List.filter_congr
  intro x hx
  by_cases hq : decide (m.idle_timeout < x.2.get_idle_time now) = true
  · have hxmem : x.1 ∈
        (m.browsers.filter
          (fun p => decide (m.idle_timeout < p.2.get_idle_time now))).map
          (fun p => p.1) :=
      List.mem_map.mpr ⟨x, List.mem_filter.mpr ⟨hx, hq⟩, rfl⟩
    simp [hxmem, hq]
  · have hxnot : x.1 ∉
        (m.browsers.filter
          (fun p => decide (m.idle_timeout < p.2.get_idle_time now))).map
          (fun p => p.1) := by
      intro hmem
      obtain ⟨r, hrf, hr1⟩ := List.mem_map.mp hmem
      obtain ⟨hrm, hrq⟩ := List.mem_filter.mp hrf
      have hrx : r = x := List.inj_on_of_nodup_map hnd hrm hx hr1
      exact hq (hrx ▸ hrq)
    simp [hxnot, hq]

/-! ## Helper lemmas about the options cache -/

theorem find?_append_self {α β : Type} [DecidableEq α]
    (cache : List (α × β)) (k : α) (o : β)
    (h : cache.find? (fun p => decide (p.1 = k)) = none) :
    (cache ++ [(k, o)]).find? (fun p => decide (p.1 = k)) = some (k, o) := by
  rw [List.find?_append, h]
  simp [List.find?]

theorem find?_append_other {α β : Type} [DecidableEq α]
    (cache : List (α × β)) (k k' : α) (o : β)
    (h : cache.find? (fun p => decide (p.1 = k')) = none) (hne : k ≠ k') :
    (cache ++ [(k, o)]).find? (fun p => decide (p.1 = k')) = none := by
  rw [List.find?_append, h]
  simp [List.find?, hne]

theorem get_browser_options_miss (m : BrowserManager) (env : Env) (kwargs : Kwargs)
    (h : m.options_cache.find? (fun p => decide (p.1 = kwargs)) = none) :
    m.get_browser_options env kwargs =
      (buildOptions env kwargs,
       { m with
         global_stats :=
           { m.global_stats with cache_misses := m.global_stats.cache_misses + 1 },
         options_cache := m.options_cache ++ [(kwargs, buildOptions env kwargs)] }) := by
  simp [BrowserManager.get_browser_options, h]

theorem get_browser_options_hit (m : BrowserManager) (env : Env) (kwargs : Kwargs)
    (entry : Kwargs × ChromiumOptions)
    (h : m.options_cache.find? (fun p => decide (p.1 = kwargs)) = some entry) :
    m.get_browser_options env kwargs =
      (entry.2,
       { m with
         global_stats :=
           { m.global_stats with cache_hits := m.global_stats.cache_hits + 1 } }) := by
  simp [BrowserManager.get_browser_options, h]

/-! ## Helper lemmas about the pool's release path -/

theorem release_untracked (p : BrowserPool) (i : BrowserInstance)
    (h : p.tracked i = false) : p.release i = (p, []) := by
  simp [BrowserPool.release, h]

theorem release_tracked_retain (p : BrowserPool) (i : BrowserInstance)
    (h : p.tracked i = true) (hc : p.available.length < p.max_size)
    (hl : i.is_active = true) :
    p.release i =
      ({ p with
         available := p.available ++ [i],
         in_use := p.in_use.filter (fun j => decide (j.instance_id ≠ i.instance_id)) },
       []) := by
  simp [BrowserPool.release, h, hc, hl]

theorem release_tracked_clean (p : BrowserPool) (i : BrowserInstance)
    (h : p.tracked i = true)
    (hc : ¬ (p.available.length < p.max_size ∧ i.is_active = true)) :
    p.release i =
      ({ p with in_use := p.in_use.filter (fun j => decide (j.instance_id ≠ i.instance_id)) },
       [i.instance_id]) := by
  have hb : (decide (p.available.length < p.max_size) && i.is_active) = false := by
    cases hia : i.is_active
    · simp
    · simp only [Bool.and_true, decide_eq_false_iff_not]
      intro hlt
      exact hc ⟨hlt, hia⟩
  simp [BrowserPool.release, h, hb]

theorem releaseAll_spec (is_ : List BrowserInstance) :
    ∀ (p : BrowserPool) (acc : List String),
      (∀ i ∈ is_, p.tracked i = true) →
      ((is_.map (fun i => i.instance_id)).Nodup) →
      (∀ i ∈ is_, i.is_active = true) →
      p.available.length ≤ p.max_size →
      (p.releaseAll is_ acc).1.available.length
          = min (p.available.length + is_.length) p.max_size ∧
      (p.releaseAll is_ acc).2.length
          = acc.length + (p.available.length + is_.length - p.max_size) := by
  induction is_ with
  | nil =>
    intro p acc _ _ _ hle
    constructor
    · simp [BrowserPool.releaseAll]
      omega
    · simp [BrowserPool.releaseAll]
      omega
  | cons i is_ ih =>
    intro p acc htr hnd hact hle
    have hi : p.tracked i = true := htr i (List.mem_cons_self i is_)
    have hia : i.is_active = true := hact i (List.mem_cons_self i is_)
    have hnd' : (is_.map (fun j => j.instance_id)).Nodup := by
      simpa using hnd.of_cons
    have hne : ∀ j ∈ is_, j.instance_id ≠ i.instance_id := by
      intro j hj heq
      have : i.instance_id ∈ is_.map (fun j => j.instance_id) :=
        List.mem_map.mpr ⟨j, hj, heq⟩
      exact (List.nodup_cons.mp (by simpa using hnd)).1 this
    have hfil : ∀ j ∈ is_,
        (p.in_use.filter (fun w => decide (w.instance_id ≠ i.instance_id))).any
          (fun w => decide (w.instance_id = j.instance_id)) = true := by
      intro j hj
      have := htr j (List.mem_cons_of_mem i hj)
      simp only [BrowserPool.tracked, List.any_eq_true] at this ⊢
      obtain ⟨w, hw, hwid⟩ := this
      refine ⟨w, ?_, hwid⟩
      refine List.mem_filter.mpr ⟨hw, ?_⟩
      simp only [decide_eq_true_eq]
      have hwj : w.instance_id = j.instance_id := by simpa using hwid
      rw [hwj]
      exact hne j hj
    have hunfold : p.releaseAll (i :: is_) acc
        = BrowserPool.releaseAll (p.release i).1 is_ (acc ++ (p.release i).2) := by
      simp only [BrowserPool.releaseAll, List.foldl_cons]
    by_cases hlt : p.available.length < p.max_size
    · have hrel := release_tracked_retain p i hi hlt hia
      have hav : (p.release i).1.available = p.available ++ [i] := by rw [hrel]
      have hmax : (p.release i).1.max_size = p.max_size := by rw [hrel]
      have hin : (p.release i).1.in_use
          = p.in_use.filter (fun j => decide (j.instance_id ≠ i.instance_id)) := by
        rw [hrel]
      have htrace : (p.release i).2 = [] := by rw [hrel]
      obtain ⟨h1, h2⟩ := ih (p.release i).1 (acc ++ (p.release i).2)
        (fun j hj => by
          simp only [BrowserPool.tracked, hin]
          exact hfil j hj)
        hnd'
        (fun j hj => hact j (List.mem_cons_of_mem i hj))
        (by rw [hav, hmax, List.length_append]; simp only [List.length_singleton]; omega)
      rw [hunfold, htrace]
      rw [htrace, hav, hmax] at h1
      rw [htrace, hav, hmax] at h2
      constructor
      · rw [h1]
        simp only [List.length_append, List.length_cons, List.length_nil,
          List.length_singleton]
        omega
      · rw [h2]
        simp only [List.length_append, List.length_nil, List.length_cons,
          List.length_singleton]
        omega
    · have heq : p.available.length = p.max_size := le_antisymm hle (not_lt.mp hlt)
      have hrel := release_tracked_clean p i hi (fun hx => hlt hx.1)
      have hav : (p.release i).1.available = p.available := by rw [hrel]
      have hmax : (p.release i).1.max_size = p.max_size := by rw [hrel]
      have hin : (p.release i).1.in_use
          = p.in_use.filter (fun j => decide (j.instance_id ≠ i.instance_id)) := by
        rw [hrel]
      have htrace : (p.release i).2 = [i.instance_id] := by rw [hrel]
      obtain ⟨h1, h2⟩ := ih (p.release i).1 (acc ++ (p.release i).2)
        (fun j hj => by
          simp only [BrowserPool.tracked, hin]
          exact hfil j hj)
        hnd'
        (fun j hj => hact j (List.mem_cons_of_mem i hj))
        (by rw [hav, hmax]; exact hle)
      rw [hunfold, htrace]
      rw [htrace, hav, hmax] at h1
      rw [htrace, hav, hmax] at h2
      constructor
      · rw [h1]
        simp only [List.length_cons, List.length_nil]
        omega
      · rw [h2]
        simp only [List.length_append, List.length_singleton, List.length_cons,
          List.length_nil]
        omega

/-! ## Helper lemmas about active-tab resolution -/

theorem get_active_tab_id_cached (m : BrowserManager) (browser_id : String)
    (inst : BrowserInstance) (a : String)
    (h : dictGet m.browsers browser_id = some inst)
    (ha : inst.active_tab_id = some a) (hin : (dictGet inst.tabs a).isSome = true) :
    m.get_active_tab_id browser_id = (some a, m) := by
  simp [BrowserManager.get_active_tab_id, h, ha, hin]

theorem get_active_tab_id_repair (m : BrowserManager) (browser_id : String)
    (inst : BrowserInstance) (t : String × TabHandle) (ts : List (String × TabHandle))
    (h : dictGet m.browsers browser_id = some inst)
    (htabs : inst.tabs = t :: ts)
    (hstale : inst.active_tab_id = none ∨
      ∃ a, inst.active_tab_id = some a ∧ dictGet inst.tabs a = none) :
    m.get_active_tab_id browser_id =
      (some t.1,
       { m with browsers :=
          (dictInsert m.browsers browser_id { inst with active_tab_id := some t.1 }) }) := by
  rcases hstale with hnone | ⟨a, ha, hmiss⟩
  · simp [BrowserManager.get_active_tab_id, h, hnone, htabs]
  · have hmiss' : dictGet (t :: ts) a = none := htabs ▸ hmiss
    simp [BrowserManager.get_active_tab_id, h, ha, htabs, hmiss']

theorem get_active_tab_id_no_tabs (m : BrowserManager) (browser_id : String)
    (inst : BrowserInstance)
    (h : dictGet m.browsers browser_id = some inst) (htabs : inst.tabs = []) :
    m.get_active_tab_id browser_id = (none, m) := by
  cases ha : inst.active_tab_id with
  | none => simp [BrowserManager.get_active_tab_id, h, ha, htabs]
  | some a =>
    have hmiss : dictGet ([] : List (String × TabHandle)) a = none := rfl
    simp [BrowserManager.get_active_tab_id, h, ha, htabs, hmiss]

theorem get_active_tab_id_resolves (m : BrowserManager) (browser_id : String)
    (inst : BrowserInstance) (h : dictGet m.browsers browser_id = some inst) :
    ∀ a, (m.get_active_tab_id browser_id).1 = some a →
      (dictGet inst.tabs a).isSome = true ∧
      ∃ inst', dictGet (m.get_active_tab_id browser_id).2.browsers browser_id
          = some inst' ∧ inst'.tabs = inst.tabs := by
  intro a hr
  by_cases htabs0 : inst.tabs = []
  · rw [get_active_tab_id_no_tabs m browser_id inst h htabs0] at hr
    exact absurd hr (by simp)
  · obtain ⟨t, ts, htabs⟩ : ∃ t ts, inst.tabs = t :: ts := by
      cases hx : inst.tabs with
      | nil => exact absurd hx htabs0
      | cons t ts => exact ⟨t, ts, rfl⟩
    have hhead : (dictGet inst.tabs t.1).isSome = true := by
      rw [htabs]
      simp [dictGet, List.find?]
    cases ha : inst.active_tab_id with
    | none =>
      rw [get_active_tab_id_repair m browser_id inst t ts h htabs (Or.inl ha)] at hr
      replace hr : some t.1 = some a := hr
      obtain rfl : t.1 = a := by injection hr
      refine ⟨hhead, ?_⟩
      rw [get_active_tab_id_repair m browser_id inst t ts h htabs (Or.inl ha)]
      exact ⟨_, dictGet_dictInsert_self _ _ _, rfl⟩
    | some b =>
      by_cases hb : (dictGet inst.tabs b).isSome = true
      · rw [get_active_tab_id_cached m browser_id inst b h ha hb] at hr
        replace hr : some b = some a := hr
        obtain rfl : b = a := by injection hr
        refine ⟨hb, ?_⟩
        rw [get_active_tab_id_cached m browser_id inst b h ha hb]
        exact ⟨inst, h, rfl⟩
      · have hmiss : dictGet inst.tabs b = none := by
          cases hx : dictGet inst.tabs b
          · rfl
          · exact absurd (by simp [hx]) hb
        rw [get_active_tab_id_repair m browser_id inst t ts h htabs
          (Or.inr ⟨b, ha, hmiss⟩)] at hr
        replace hr : some t.1 = some a := hr
        obtain rfl : t.1 = a := by injection hr
        refine ⟨hhead, ?_⟩
        rw [get_active_tab_id_repair m browser_id inst t ts h htabs
          (Or.inr ⟨b, ha, hmiss⟩)]
        exact ⟨_, dictGet_dictInsert_self _ _ _, rfl⟩

theorem get_active_tab_id_some_of_ne_nil (m : BrowserManager) (browser_id : String)
    (inst : BrowserInstance) (h : dictGet m.browsers browser_id = some inst)
    (hne : inst.tabs ≠ []) :
    ∃ a, (m.get_active_tab_id browser_id).1 = some a := by
  obtain ⟨t, ts, htabs⟩ : ∃ t ts, inst.tabs = t :: ts := by
    cases hx : inst.tabs with
    | nil => exact absurd hx hne
    | cons t ts => exact ⟨t, ts, rfl⟩
  cases ha : inst.active_tab_id with
  | none =>
    rw [get_active_tab_id_repair m browser_id inst t ts h htabs (Or.inl ha)]
    exact ⟨t.1, rfl⟩
  | some b =>
    by_cases hb : (dictGet inst.tabs b).isSome = true
    · rw [get_active_tab_id_cached m browser_id inst b h ha hb]
      exact ⟨b, rfl⟩
    · have hmiss : dictGet inst.tabs b = none := by
        cases hx : dictGet inst.tabs b
        · rfl
        · exact absurd (by simp [hx]) hb
      rw [get_active_tab_id_repair m browser_id inst t ts h htabs
        (Or.inr ⟨b, ha, hmiss⟩)]
      exact ⟨t.1, rfl⟩

/-! ## Helper lemmas about stop -/

theorem stop_components (m : BrowserManager) :
    (m.stop).1.browsers = [] ∧
    (m.stop).1.browser_pool.available = [] ∧
    (m.stop).1.browser_pool.in_use = [] ∧
    (m.stop).1.is_running = false := by
  cases hct : m.cleanup_task with
  | none =>
    simp only [BrowserManager.stop, BrowserManager.cleanup_all, BrowserPool.clear, hct]
    refine ⟨trivial, trivial, trivial, ?_⟩
    rw [(destroyMany_frame _ _ _).1]
  | some b =>
    simp only [BrowserManager.stop, BrowserManager.cleanup_all, BrowserPool.clear, hct]
    refine ⟨trivial, trivial, trivial, ?_⟩
    rw [(destroyMany_frame _ _ _).1]

theorem stop_cleanup_task (m : BrowserManager) (b : Bool)
    (hct : m.cleanup_task = some b) :
    (m.stop).1.cleanup_task = some true := by
  simp only [BrowserManager.stop, BrowserManager.cleanup_all, BrowserPool.clear, hct]
  rw [(destroyMany_frame _ _ _).2.1]

/-! ## Helper lemmas about create_browser -/

theorem get_browser_options_frame (m : BrowserManager) (env : Env) (kwargs : Kwargs) :
    (m.get_browser_options env kwargs).2.browsers = m.browsers ∧
    (m.get_browser_options env kwargs).2.browser_pool = m.browser_pool ∧
    (m.get_browser_options env kwargs).2.max_browsers = m.max_browsers := by
  simp only [BrowserManager.get_browser_options]
  cases hf : (m.options_cache.find? fun p => decide (p.1 = kwargs)) <;> simp

theorem bump_errors_frame (m : BrowserManager) :
    m.bump_errors.browsers = m.browsers ∧
    m.bump_errors.browser_pool = m.browser_pool ∧
    m.bump_errors.max_browsers = m.max_browsers :=
  ⟨rfl, rfl, rfl⟩

theorem create_browser_start_frame (m : BrowserManager) (env : Env)
    (cenv : CreateEnv) (browser_type : String) (kwargs : Kwargs)
    (cleaned : List String) :
    (m.create_browser_start env cenv browser_type kwargs cleaned).state.browsers.length
        ≤ m.browsers.length + 1 ∧
    (m.create_browser_start env cenv browser_type kwargs cleaned).state.max_browsers
        = m.max_browsers ∧
    (m.create_browser_start env cenv browser_type kwargs cleaned).state.browser_pool
        = m.browser_pool := by
  simp only [BrowserManager.create_browser_start]
  generalize (if browser_type = "chrome" && !(strTruthy kwargs.user_data_dir) then
      match cenv.temp_user_data_dir with
      | some d => { kwargs with user_data_dir := some d }
      | none => kwargs
    else kwargs) = kwargs'
  obtain ⟨g1, g2, g3⟩ := get_browser_options_frame m env kwargs'
  split
  · exact ⟨Nat.le_succ_of_le (Nat.le_of_eq (congrArg List.length g1)), g3, g2⟩
  · split
    · exact ⟨Nat.le_succ_of_le (Nat.le_of_eq (congrArg List.length g1)), g3, g2⟩
    · split
      · exact ⟨le_trans (dictInsert_length_le _ _ _) (by rw [g1]), g3, g2⟩
      · exact ⟨Nat.le_succ_of_le (Nat.le_of_eq (congrArg List.length g1)), g3, g2⟩

theorem create_browser_fresh (m : BrowserManager) (env : Env) (cenv : CreateEnv)
    (bt : Option String) (kwargs : Kwargs)
    (hpd : cenv.pydoll_available = true)
    (hav : m.browser_pool.available = [])
    (hlen : m.browsers.length < m.max_browsers) :
    m.create_browser env cenv bt kwargs
      = m.create_browser_start env cenv (bt.getD m.default_browser_type) kwargs [] := by
  have hcap : ¬ (m.max_browsers ≤ m.browsers.length) := not_le.mpr hlen
  simp only [BrowserManager.create_browser, hpd, Bool.not_true, Bool.false_eq_true,
    if_false, BrowserPool.acquire, hav, hcap, if_true]

theorem create_browser_start_some (m : BrowserManager) (env : Env)
    (cenv : CreateEnv) (kwargs : Kwargs) (cleaned : List String)
    (handle : BrowserHandle) (tab : TabHandle) (d : ℚ)
    (hstart : cenv.start_result = .ok (handle, some tab, d)) :
    ∃ inst,
      (m.create_browser_start env cenv "chrome" kwargs cleaned).result = .ok inst ∧
      inst.tabs = [(cenv.tab_id, tab)] ∧
      inst.active_tab_id = some cenv.tab_id ∧
      dictGet (m.create_browser_start env cenv "chrome" kwargs cleaned).state.browsers
        cenv.browser_id = some inst := by
  simp only [BrowserManager.create_browser_start, hstart]
  refine ⟨_, rfl, ?_, ?_, ?_⟩
  · simp [BrowserInstance.init, dictInsert]
  · rfl
  · exact dictGet_dictInsert_self _ _ _

theorem create_browser_start_none (m : BrowserManager) (env : Env)
    (cenv : CreateEnv) (kwargs : Kwargs) (cleaned : List String)
    (handle : BrowserHandle) (d : ℚ)
    (hstart : cenv.start_result = .ok (handle, none, d)) :
    (m.create_browser_start env cenv "chrome" kwargs cleaned).result =
      .error (.internalInvariantViolation
        "PyDoll browser.start() did not return a tab") := by
  simp [BrowserManager.create_browser_start, hstart]

theorem create_browser_start_ok_tabs (m : BrowserManager) (env : Env)
    (cenv : CreateEnv) (browser_type : String) (kwargs : Kwargs)
    (cleaned : List String) (inst : BrowserInstance)
    (h : (m.create_browser_start env cenv browser_type kwargs cleaned).result
          = .ok inst) :
    inst.tabs ≠ [] := by
  simp only [BrowserManager.create_browser_start] at h
  split at h
  · exact absurd h (by simp)
  · split at h
    · exact absurd h (by simp)
    · split at h
      · simp only [Except.ok.injEq] at h
        subst h
        simp [BrowserInstance.init, dictInsert]
      · exact absurd h (by simp)

theorem cleanup_idle_frame (m : BrowserManager) (now : ℚ) :
    (m.cleanup_idle_browsers now).1.max_browsers = m.max_browsers ∧
    (m.cleanup_idle_browsers now).1.browsers.length ≤ m.browsers.length ∧
    (m.browser_pool.in_use = [] →
      (m.cleanup_idle_browsers now).1.browser_pool = m.browser_pool) := by
  refine ⟨?_, ?_, ?_⟩
  · simp only [BrowserManager.cleanup_idle_browsers]
    exact (destroyMany_frame _ _ _).2.2.1
  · simp only [BrowserManager.cleanup_idle_browsers]
    exact destroyMany_browsers_length_le _ _ _
  · intro hin
    simp only [BrowserManager.cleanup_idle_browsers]
    exact (destroyMany_pool_of_no_in_use _ _ _ hin).1

theorem create_browser_invariant (m : BrowserManager) (env : Env) (cenv : CreateEnv)
    (bt : Option String) (kwargs : Kwargs)
    (hav : m.browser_pool.available = [])
    (hin : m.browser_pool.in_use = [])
    (hlen : m.browsers.length ≤ m.max_browsers) :
    (m.create_browser env cenv bt kwargs).state.browsers.length ≤ m.max_browsers ∧
    (m.create_browser env cenv bt kwargs).state.max_browsers = m.max_browsers ∧
    (m.create_browser env cenv bt kwargs).state.browser_pool = m.browser_pool := by
  cases hpd : cenv.pydoll_available with
  | false =>
    simp only [BrowserManager.create_browser, hpd, Bool.not_false, if_true]
    exact ⟨hlen, trivial, trivial⟩
  | true =>
    by_cases hcap : m.max_browsers ≤ m.browsers.length
    · have hmc := cleanup_idle_frame m cenv.now
      simp only [BrowserManager.create_browser, hpd, Bool.not_true,
        Bool.false_eq_true, if_false, BrowserPool.acquire, hav, hcap, if_true]
      by_cases hcap2 : m.max_browsers
          ≤ (m.cleanup_idle_browsers cenv.now).1.browsers.length
      · rw [if_pos (by rw [hmc.1]; exact hcap2)]
        exact ⟨le_trans hmc.2.1 hlen, hmc.1, hmc.2.2 hin⟩
      · rw [if_neg (by rw [hmc.1]; exact hcap2)]
        obtain ⟨f1, f2, f3⟩ := create_browser_start_frame
          (m.cleanup_idle_browsers cenv.now).1 env cenv
          (bt.getD m.default_browser_type) kwargs
          (m.cleanup_idle_browsers cenv.now).2
        refine ⟨?_, f2.trans hmc.1, f3.trans (hmc.2.2 hin)⟩
        have : (m.cleanup_idle_browsers cenv.now).1.browsers.length < m.max_browsers :=
          not_le.mp hcap2
        omega
    · have hlt : m.browsers.length < m.max_browsers := not_le.mp hcap
      rw [create_browser_fresh m env cenv bt kwargs hpd hav hlt]
      obtain ⟨f1, f2, f3⟩ := create_browser_start_frame m env cenv
        (bt.getD m.default_browser_type) kwargs []
      exact ⟨by omega, f2, f3⟩

theorem create_browser_at_capacity (m : BrowserManager) (env : Env)
    (cenv : CreateEnv) (bt : Option String) (kwargs : Kwargs)
    (hpd : cenv.pydoll_available = true)
    (hav : m.browser_pool.available = [])
    (hcap : m.max_browsers ≤ m.browsers.length)
    (hstill : m.max_browsers ≤ (m.cleanup_idle_browsers cenv.now).1.browsers.length) :
    m.create_browser env cenv bt kwargs
      = ⟨.error (.resourceExhausted m.max_browsers),
         (m.cleanup_idle_browsers cenv.now).1,
         (m.cleanup_idle_browsers cenv.now).2⟩ := by
  have hmc := cleanup_idle_frame m cenv.now
  simp only [BrowserManager.create_browser, hpd, Bool.not_true,
    Bool.false_eq_true, if_false, BrowserPool.acquire, hav, hcap, if_true]
  rw [if_pos (by rw [hmc.1]; exact hstill), hmc.1]

theorem createMany_invariant (calls : List CreateArgs) :
    ∀ (m : BrowserManager),
      m.browser_pool.available = [] →
      m.browser_pool.in_use = [] →
      m.browsers.length ≤ m.max_browsers →
      (m.createMany calls).browsers.length ≤ m.max_browsers ∧
      (m.createMany calls).max_browsers = m.max_browsers ∧
      (m.createMany calls).browser_pool = m.browser_pool := by
  induction calls with
  | nil => intro m h1 h2 h3; exact ⟨h3, rfl, rfl⟩
  | cons c cs ih =>
    intro m h1 h2 h3
    simp only [BrowserManager.createMany, List.foldl_cons] at *
    obtain ⟨a1, a2, a3⟩ :=
      create_browser_invariant m c.env c.cenv c.browser_type c.kwargs h1 h2 h3
    obtain ⟨b1, b2, b3⟩ := ih (m.create_browser c.env c.cenv c.browser_type c.kwargs).state
      (by rw [a3]; exact h1) (by rw [a3]; exact h2) (by rw [a2]; exact a1)
    exact ⟨by rw [a2] at b1; exact b1, b2.trans a2, b3.trans a3⟩

/-! ## Claim theorems -/

/-- C9: in the metrics collector only `record_navigation` increments the
total-operations counter and `record_error` increments only the error
counter, so `get_error_rate` (error_count / total_operations × 100, and 0
when total_operations is 0) is not bounded by 100: after one navigation
and two errors it returns 200, while with zero recorded navigations it
returns 0 no matter how many errors were recorded. -/
theorem C9_error_rate_unbounded :
    (∀ (mx : BrowserMetrics) (d : ℚ),
        (mx.record_navigation d).total_operations = mx.total_operations + 1 ∧
        (mx.record_navigation d).error_count = mx.error_count) ∧
    (∀ (mx : BrowserMetrics),
        mx.record_error.total_operations = mx.total_operations ∧
        mx.record_error.error_count = mx.error_count + 1) ∧
    ((((BrowserMetrics.init 100).record_navigation 1).record_error.record_error.get_error_rate
        = 200) ∧
     (∀ (mx : BrowserMetrics), mx.total_operations = 0 → mx.get_error_rate = 0)) := by
  refine ⟨fun mx d => ⟨rfl, rfl⟩, fun mx => ⟨rfl, rfl⟩, ?_, fun mx h => ?_⟩
  · norm_num [BrowserMetrics.init, BrowserMetrics.record_navigation,
      BrowserMetrics.record_error, BrowserMetrics.get_error_rate]
  · simp [BrowserMetrics.get_error_rate, h]

/-- C9 witness: a fresh metrics collector has error rate 0. -/
theorem C9_witness : (BrowserMetrics.init 100).get_error_rate = 0 :=
  C9_error_rate_unbounded.2.2.2 (BrowserMetrics.init 100) rfl

/-- C5: `destroy_browser` on an absent id returns without raising and
changes nothing (active map, pool, statistics), and a second
`destroy_browser` on the same id is always such a no-op (the model is a
total function, so neither call can raise). -/
theorem C5_destroy_idempotent :
    (∀ (m : BrowserManager) (browser_id : String),
        dictGet m.browsers browser_id = none →
        m.destroy_browser browser_id = (m, [])) ∧
    (∀ (m : BrowserManager) (browser_id : String),
        (m.destroy_browser browser_id).1.destroy_browser browser_id
          = ((m.destroy_browser browser_id).1, [])) := by
  constructor
  · intro m browser_id h
    exact destroy_browser_absent m browser_id h
  · intro m browser_id
    refine destroy_browser_absent _ _ ?_
    rw [destroy_browser_browsers]
    exact dictGet_dictErase _ _

/-- C5 witness: destroying an unknown id on a fresh manager is a no-op. -/
theorem C5_witness : emptyManager.destroy_browser "browser_x" = (emptyManager, []) :=
  C5_destroy_idempotent.1 emptyManager "browser_x" rfl

/-- C6: `get_active_tab_id` returns the stored active-tab id when it is a
key of the tab map; otherwise, when the tab map is non-empty, adopts and
returns the first tab id (repairing the stored pointer); otherwise
returns none — and the returned id is always a key of the tab map, so a
stale pointer is never returned. -/
theorem C6_active_tab_never_stale :
    ∀ (m : BrowserManager) (browser_id : String) (inst : BrowserInstance),
      dictGet m.browsers browser_id = some inst →
      ((∀ a, inst.active_tab_id = some a → (dictGet inst.tabs a).isSome = true →
          m.get_active_tab_id browser_id = (some a, m)) ∧
       (∀ t ts, inst.tabs = t :: ts →
          (inst.active_tab_id = none ∨
            (∃ a, inst.active_tab_id = some a ∧ dictGet inst.tabs a = none)) →
          m.get_active_tab_id browser_id =
            (some t.1,
             { m with browsers :=
                (dictInsert m.browsers browser_id
                  { inst with active_tab_id := some t.1 }) })) ∧
       (inst.tabs = [] → m.get_active_tab_id browser_id = (none, m)) ∧
       (∀ a, (m.get_active_tab_id browser_id).1 = some a →
          (dictGet inst.tabs a).isSome = true)) :=
  fun m browser_id inst h =>
    ⟨fun a ha hin => get_active_tab_id_cached m browser_id inst a h ha hin,
     fun t ts htabs hstale => get_active_tab_id_repair m browser_id inst t ts h htabs hstale,
     fun htabs => get_active_tab_id_no_tabs m browser_id inst h htabs,
     fun a hr => (get_active_tab_id_resolves m browser_id inst h a hr).1⟩

/-- C6 witness: with tabs {tab_b} and stale active pointer tab_a, the
resolver adopts and returns tab_b, never the stale tab_a. -/
theorem C6_witness :
    C6mgr.get_active_tab_id "browser_1" =
      (some "tab_b",
       { C6mgr with browsers :=
          (dictInsert C6mgr.browsers "browser_1"
            { C6inst with active_tab_id := some "tab_b" }) }) :=
  (C6_active_tab_never_stale C6mgr "browser_1" C6inst (by decide)).2.1
    ("tab_b", 2) [] rfl (Or.inr ⟨"tab_a", rfl, by decide⟩)

/-- C1 counterexample: the claim asserts that a released instance that is
neither retained nor live is always torn down, but `release` runs its
whole body only when the instance is tracked in the in-use set. Releasing
the dead, never-tracked instance `C1dead` leaves the pool unchanged and
invokes no cleanup (empty cleanup trace), refuting the claim. -/
theorem C1_counterexample :
    (C1pool.release C1dead = (C1pool, [])) ∧
    C1dead.is_active = false ∧
    ¬ (∀ (p : BrowserPool) (i : BrowserInstance),
        i.is_active = false → (p.release i).2 = [i.instance_id]) := by
  refine ⟨by decide, by decide, fun h => ?_⟩
  have h2 := h C1pool C1dead (by decide)
  rw [show C1pool.release C1dead = (C1pool, []) from by decide] at h2
  exact absurd h2 (by decide)

/-- C1 (amended): release removes the instance from the in-use set and
then either retains it (spare capacity and still live) or invokes its
cleanup, PROVIDED the instance was tracked as in-use; releasing an
untracked instance is a complete no-op (neither retained nor cleaned up,
even when dead). Releasing more than `max_size` live in-use instances
onto an empty available set retains exactly `max_size` and tears down the
rest. -/
theorem C1_pool_release_amended :
    (∀ (p : BrowserPool) (i : BrowserInstance),
        p.tracked i = false → p.release i = (p, [])) ∧
    (∀ (p : BrowserPool) (i : BrowserInstance),
        p.tracked i = true →
        ((p.available.length < p.max_size ∧ i.is_active = true) →
          p.release i =
            ({ p with
               available := p.available ++ [i],
               in_use := p.in_use.filter
                 (fun j => decide (j.instance_id ≠ i.instance_id)) },
             [])) ∧
        (¬ (p.available.length < p.max_size ∧ i.is_active = true) →
          p.release i =
            ({ p with
               in_use := p.in_use.filter
                 (fun j => decide (j.instance_id ≠ i.instance_id)) },
             [i.instance_id]))) ∧
    (∀ (is_ : List BrowserInstance) (p : BrowserPool),
        p.available = [] →
        (∀ i ∈ is_, p.tracked i = true) →
        (is_.map (fun i => i.instance_id)).Nodup →
        (∀ i ∈ is_, i.is_active = true) →
        p.max_size < is_.length →
        (p.releaseAll is_ []).1.available.length = p.max_size ∧
        (p.releaseAll is_ []).2.length = is_.length - p.max_size) := by
  refine ⟨fun p i h => release_untracked p i h,
          fun p i h =>
            ⟨fun hc => release_tracked_retain p i h hc.1 hc.2,
             fun hc => release_tracked_clean p i h hc⟩,
          fun is_ p hav htr hnd hact hlt => ?_⟩
  obtain ⟨h1, h2⟩ := releaseAll_spec is_ p [] htr hnd hact (by rw [hav]; simp)
  rw [hav] at h1 h2
  constructor
  · rw [h1]
    simp only [List.length_nil, Nat.zero_add]
    omega
  · rw [h2]
    simp only [List.length_nil, Nat.zero_add]

/-- C1 witness for the amended claim: releasing 2 live in-use instances
into a capacity-1 pool retains exactly 1 and tears down 1. -/
theorem C1_pool_release_amended_witness :
    (C1poolFull.releaseAll C1insts []).1.available.length = 1 ∧
    (C1poolFull.releaseAll C1insts []).2.length = 1 :=
  C1_pool_release_amended.2.2 C1insts C1poolFull rfl (by decide) (by decide)
    (by decide) (by decide)

/-- C8: two consecutive options-builder calls with identical kwargs
produce one cache miss (first call constructs and caches) followed by one
cache hit (second call returns the same cached object); two calls with
differing kwargs produce two misses and no hit. -/
theorem C8_options_cache_counters :
    ∀ (m : BrowserManager) (env : Env) (k₁ k₂ : Kwargs),
      m.options_cache.find? (fun p => decide (p.1 = k₁)) = none →
      m.options_cache.find? (fun p => decide (p.1 = k₂)) = none →
      k₁ ≠ k₂ →
      ((m.get_browser_options env k₁).2.global_stats.cache_misses
          = m.global_stats.cache_misses + 1 ∧
       (m.get_browser_options env k₁).2.global_stats.cache_hits
          = m.global_stats.cache_hits) ∧
      (((m.get_browser_options env k₁).2.get_browser_options env k₁).2.global_stats.cache_hits
          = m.global_stats.cache_hits + 1 ∧
       ((m.get_browser_options env k₁).2.get_browser_options env k₁).2.global_stats.cache_misses
          = m.global_stats.cache_misses + 1 ∧
       ((m.get_browser_options env k₁).2.get_browser_options env k₁).1
          = (m.get_browser_options env k₁).1) ∧
      (((m.get_browser_options env k₁).2.get_browser_options env k₂).2.global_stats.cache_misses
          = m.global_stats.cache_misses + 2 ∧
       ((m.get_browser_options env k₁).2.get_browser_options env k₂).2.global_stats.cache_hits
          = m.global_stats.cache_hits) := by
  intro m env k₁ k₂ h1 h2 hne
  have hm1 := get_browser_options_miss m env k₁ h1
  have hcache1 : (m.get_browser_options env k₁).2.options_cache
      = m.options_cache ++ [(k₁, buildOptions env k₁)] := by rw [hm1]
  have hfind1 : (m.get_browser_options env k₁).2.options_cache.find?
      (fun p => decide (p.1 = k₁)) = some (k₁, buildOptions env k₁) := by
    rw [hcache1]
    exact find?_append_self _ _ _ h1
  have hfind2 : (m.get_browser_options env k₁).2.options_cache.find?
      (fun p => decide (p.1 = k₂)) = none := by
    rw [hcache1]
    exact find?_append_other _ _ _ _ h2 hne
  have hhit := get_browser_options_hit (m.get_browser_options env k₁).2 env k₁
    (k₁, buildOptions env k₁) hfind1
  have hm2 := get_browser_options_miss (m.get_browser_options env k₁).2 env k₂ hfind2
  refine ⟨⟨by rw [hm1], by rw [hm1]⟩, ⟨?_, ?_, ?_⟩, ?_, ?_⟩
  · rw [hhit]
    simp only
    rw [hm1]
  · rw [hhit]
    simp only
    rw [hm1]
  · rw [hhit, hm1]
  · rw [hm2]
    simp only
    rw [hm1]
  · rw [hm2]
    simp only
    rw [hm1]

/-- C8 witness: on a fresh manager, building options for the empty kwargs
twice gives one miss then one hit returning the same object; building for
kwargs with a different window width gives a second miss and no hit. -/
theorem C8_witness :
    ((emptyManager.get_browser_options defaultEnv emptyKwargs).2.global_stats.cache_misses = 1 ∧
     (emptyManager.get_browser_options defaultEnv emptyKwargs).2.global_stats.cache_hits = 0) ∧
    (((emptyManager.get_browser_options defaultEnv emptyKwargs).2.get_browser_options
        defaultEnv emptyKwargs).2.global_stats.cache_hits = 1 ∧
     ((emptyManager.get_browser_options defaultEnv emptyKwargs).2.get_browser_options
        defaultEnv emptyKwargs).2.global_stats.cache_misses = 1 ∧
     ((emptyManager.get_browser_options defaultEnv emptyKwargs).2.get_browser_options
        defaultEnv emptyKwargs).1
       = (emptyManager.get_browser_options defaultEnv emptyKwargs).1) ∧
    (((emptyManager.get_browser_options defaultEnv emptyKwargs).2.get_browser_options
        defaultEnv C8kwargs).2.global_stats.cache_misses = 2 ∧
     ((emptyManager.get_browser_options defaultEnv emptyKwargs).2.get_browser_options
        defaultEnv C8kwargs).2.global_stats.cache_hits = 0) :=
  C8_options_cache_counters emptyManager defaultEnv emptyKwargs C8kwargs rfl rfl
    (by decide)

/-- C10: the options-cache key is computed only from the kwargs as
supplied, before environment defaults are applied: omitting a field
versus explicitly passing that field's environment-default value yields
two distinct cache entries and two misses even though the constructed
options are equal; and with identical kwargs the second call returns the
first call's cached object even if the environment changed in between. -/
theorem C10_cache_key_ignores_env :
    ∀ (m : BrowserManager) (env env' : Env) (k₁ k₂ : Kwargs),
      k₁.window_width = none →
      k₂ = { k₁ with window_width := some env.window_width } →
      m.options_cache.find? (fun p => decide (p.1 = k₁)) = none →
      m.options_cache.find? (fun p => decide (p.1 = k₂)) = none →
      (((m.get_browser_options env k₁).2.get_browser_options env k₂).2.global_stats.cache_misses
          = m.global_stats.cache_misses + 2 ∧
       ((m.get_browser_options env k₁).2.get_browser_options env k₂).2.global_stats.cache_hits
          = m.global_stats.cache_hits ∧
       ((m.get_browser_options env k₁).2.get_browser_options env k₂).2.options_cache
          = m.options_cache
              ++ [(k₁, buildOptions env k₁), (k₂, buildOptions env k₂)] ∧
       buildOptions env k₁ = buildOptions env k₂) ∧
      (((m.get_browser_options env k₁).2.get_browser_options env' k₁).1
          = (m.get_browser_options env k₁).1 ∧
       ((m.get_browser_options env k₁).2.get_browser_options env' k₁).2.global_stats.cache_hits
          = m.global_stats.cache_hits + 1) := by
  intro m env env' k₁ k₂ hww hk2 h1 h2
  have hne : k₁ ≠ k₂ := by
    intro he
    have : k₁.window_width = k₂.window_width := by rw [he]
    rw [hww, hk2] at this
    exact Option.noConfusion this
  have hm1 := get_browser_options_miss m env k₁ h1
  have hcache1 : (m.get_browser_options env k₁).2.options_cache
      = m.options_cache ++ [(k₁, buildOptions env k₁)] := by rw [hm1]
  have hfind1 : (m.get_browser_options env k₁).2.options_cache.find?
      (fun p => decide (p.1 = k₁)) = some (k₁, buildOptions env k₁) := by
    rw [hcache1]
    exact find?_append_self _ _ _ h1
  have hfind2 : (m.get_browser_options env k₁).2.options_cache.find?
      (fun p => decide (p.1 = k₂)) = none := by
    rw [hcache1]
    exact find?_append_other _ _ _ _ h2 hne
  have hhit := get_browser_options_hit (m.get_browser_options env k₁).2 env' k₁
    (k₁, buildOptions env k₁) hfind1
  have hm2 := get_browser_options_miss (m.get_browser_options env k₁).2 env k₂ hfind2
  have hsame : buildOptions env k₁ = buildOptions env k₂ := by
    subst hk2
    simp only [buildOptions, hww, Option.getD_none, Option.getD_some]
  refine ⟨⟨?_, ?_, ?_, hsame⟩, ?_, ?_⟩
  · rw [hm2]
    simp only
    rw [hm1]
  · rw [hm2]
    simp only
    rw [hm1]
  · rw [hm2]
    simp only
    rw [hm1]
    simp
  · rw [hhit, hm1]
  · rw [hhit]
    simp only
    rw [hm1]

/-- C10 witness: on a fresh manager, omitting the window width and then
passing 1920 (the default environment's width) explicitly yields two
cache entries, two misses, and equal constructed options; and a repeated
call with the empty kwargs under a changed environment is a hit returning
the originally constructed object. -/
theorem C10_witness :
    (((emptyManager.get_browser_options defaultEnv emptyKwargs).2.get_browser_options
        defaultEnv C10kwargs).2.global_stats.cache_misses = 2 ∧
     ((emptyManager.get_browser_options defaultEnv emptyKwargs).2.get_browser_options
        defaultEnv C10kwargs).2.global_stats.cache_hits = 0 ∧
     ((emptyManager.get_browser_options defaultEnv emptyKwargs).2.get_browser_options
        defaultEnv C10kwargs).2.options_cache
        = [(emptyKwargs, buildOptions defaultEnv emptyKwargs),
           (C10kwargs, buildOptions defaultEnv C10kwargs)] ∧
     buildOptions defaultEnv emptyKwargs = buildOptions defaultEnv C10kwargs) ∧
    (((emptyManager.get_browser_options defaultEnv emptyKwargs).2.get_browser_options
        C10env emptyKwargs).1
        = (emptyManager.get_browser_options defaultEnv emptyKwargs).1 ∧
     ((emptyManager.get_browser_options defaultEnv emptyKwargs).2.get_browser_options
        C10env emptyKwargs).2.global_stats.cache_hits = 1) :=
  C10_cache_key_ignores_env emptyManager defaultEnv C10env emptyKwargs C10kwargs
    rfl rfl rfl rfl

/-- C7: after `stop()` the active-instance map is empty, the pool's
available and in-use sets are empty, and the manager is marked
not-running; when a periodic cleanup task existed it is left in the
cancelled state (the model's `stop` is a total function — the awaited
cancellation never propagates); and a subsequent `stop()` on the
already-stopped manager also returns (without raising) with everything
still empty and not-running. -/
theorem C7_stop_clean :
    ∀ (m : BrowserManager),
      (m.stop).1.browsers = [] ∧
      (m.stop).1.browser_pool.available = [] ∧
      (m.stop).1.browser_pool.in_use = [] ∧
      (m.stop).1.is_running = false ∧
      (∀ b, m.cleanup_task = some b → (m.stop).1.cleanup_task = some true) ∧
      (((m.stop).1.stop).1.browsers = [] ∧
       ((m.stop).1.stop).1.browser_pool.available = [] ∧
       ((m.stop).1.stop).1.browser_pool.in_use = [] ∧
       ((m.stop).1.stop).1.is_running = false) :=
  fun m =>
    ⟨(stop_components m).1, (stop_components m).2.1, (stop_components m).2.2.1,
     (stop_components m).2.2.2,
     fun b hb => stop_cleanup_task m b hb,
     (stop_components (m.stop).1).1, (stop_components (m.stop).1).2.1,
     (stop_components (m.stop).1).2.2.1, (stop_components (m.stop).1).2.2.2⟩

/-- C7 witness: stopping a running manager with a live periodic task
leaves the cancelled task, empty maps, empty pool, and not-running. -/
theorem C7_witness :
    (C7mgr.stop).1.browsers = [] ∧
    (C7mgr.stop).1.cleanup_task = some true ∧
    (C7mgr.stop).1.is_running = false :=
  ⟨(C7_stop_clean C7mgr).1,
   (C7_stop_clean C7mgr).2.2.2.2.1 false rfl,
   (C7_stop_clean C7mgr).2.2.2.1⟩

/-- C4: `get_tab_with_fallback` with no tab id resolves the active tab
and fails with NotFound exactly when no active tab exists (empty tab
map); with a supplied tab id that is present it returns that tab and id;
with a supplied tab id that is absent it falls back to the active tab
(returning the active tab's id, not the caller's input) unless no active
tab exists either, in which case it fails with NotFound. -/
theorem C4_tab_fallback :
    ∀ (m : BrowserManager) (browser_id : String) (inst : BrowserInstance),
      dictGet m.browsers browser_id = some inst →
      ((inst.tabs = [] →
          m.get_tab_with_fallback browser_id none =
            .error (.notFound ("No active tab found in browser " ++ browser_id))) ∧
       (inst.tabs ≠ [] →
          ∃ tab used m', m.get_tab_with_fallback browser_id none
              = .ok ((tab, used), m') ∧ dictGet inst.tabs used = some tab) ∧
       (∀ t tab, dictGet inst.tabs t = some tab →
          m.get_tab_with_fallback browser_id (some t) = .ok ((tab, t), m)) ∧
       (∀ t, dictGet inst.tabs t = none →
          (inst.tabs = [] →
            m.get_tab_with_fallback browser_id (some t) =
              .error (.notFound
                ("Tab " ++ t ++ " not found in browser " ++ browser_id))) ∧
          (inst.tabs ≠ [] →
            ∃ tab used m', m.get_tab_with_fallback browser_id (some t)
                = .ok ((tab, used), m') ∧ used ≠ t ∧
                dictGet inst.tabs used = some tab ∧
                (m.get_active_tab_id browser_id).1 = some used))) := by
  intro m browser_id inst h
  refine ⟨?_, ?_, ?_, ?_⟩
  · intro htabs
    have hact := get_active_tab_id_no_tabs m browser_id inst h htabs
    simp [BrowserManager.get_tab_with_fallback, h, hact]
  · intro hne
    obtain ⟨a, ha⟩ := get_active_tab_id_some_of_ne_nil m browser_id inst h hne
    obtain ⟨hsome, inst', hinst', htabs'⟩ :=
      get_active_tab_id_resolves m browser_id inst h a ha
    obtain ⟨tab, htab⟩ := Option.isSome_iff_exists.mp hsome
    have htab' : dictGet inst'.tabs a = some tab := by rw [htabs']; exact htab
    refine ⟨tab, a, (m.get_active_tab_id browser_id).2, ?_, htab⟩
    simp [BrowserManager.get_tab_with_fallback, h, ha, hinst', htab']
  · intro t tab htab
    simp [BrowserManager.get_tab_with_fallback, h, htab]
  · intro t htmiss
    constructor
    · intro htabs
      have hact := get_active_tab_id_no_tabs m browser_id inst h htabs
      simp [BrowserManager.get_tab_with_fallback, h, htmiss, hact]
    · intro hne
      obtain ⟨a, ha⟩ := get_active_tab_id_some_of_ne_nil m browser_id inst h hne
      obtain ⟨hsome, inst', hinst', htabs'⟩ :=
        get_active_tab_id_resolves m browser_id inst h a ha
      obtain ⟨tab, htab⟩ := Option.isSome_iff_exists.mp hsome
      have htab' : dictGet inst'.tabs a = some tab := by rw [htabs']; exact htab
      have hat : a ≠ t := by
        intro heq
        rw [heq, htmiss] at htab
        exact Option.noConfusion htab
      refine ⟨tab, a, (m.get_active_tab_id browser_id).2, ?_, hat, htab, ha⟩
      simp [BrowserManager.get_tab_with_fallback, h, htmiss, ha, hinst', htab', hat]

/-- C4 witness: on an instance whose only tab is tab_x (also active),
requesting the ghost tab id falls back to tab_x rather than failing, and
the returned id is tab_x. -/
theorem C4_witness :
    ∃ tab used m', C4mgr.get_tab_with_fallback "browser_1" (some "ghost")
        = .ok ((tab, used), m') ∧ used ≠ "ghost" ∧
        dictGet C4inst.tabs used = some tab ∧
        (C4mgr.get_active_tab_id "browser_1").1 = some used :=
  ((C4_tab_fallback C4mgr "browser_1" C4inst (by decide)).2.2.2 "ghost"
    (by decide)).2 (by decide)

/-- C3: in `create_browser`, after a successful start on the fresh-create
path: when an initial tab is returned it is registered in the new
instance's tab map under the freshly generated tab id, that id becomes
the instance's active tab, and the instance is registered before being
returned; when no initial tab is returned, `create_browser` fails with
`InternalInvariantViolation`; and a returned instance never has an empty
tab map. -/
theorem C3_initial_tab_registration :
    ∀ (m : BrowserManager) (env : Env) (cenv : CreateEnv) (kwargs : Kwargs),
      cenv.pydoll_available = true →
      m.browser_pool.available = [] →
      m.browsers.length < m.max_browsers →
      ((∀ handle tab d, cenv.start_result = .ok (handle, some tab, d) →
          ∃ inst,
            (m.create_browser env cenv (some "chrome") kwargs).result = .ok inst ∧
            inst.tabs = [(cenv.tab_id, tab)] ∧
            inst.active_tab_id = some cenv.tab_id ∧
            dictGet (m.create_browser env cenv (some "chrome") kwargs).state.browsers
              cenv.browser_id = some inst) ∧
       (∀ handle d, cenv.start_result = .ok (handle, none, d) →
          (m.create_browser env cenv (some "chrome") kwargs).result =
            .error (.internalInvariantViolation
              "PyDoll browser.start() did not return a tab")) ∧
       (∀ bt inst,
          (m.create_browser env cenv (some bt) kwargs).result = .ok inst →
          inst.tabs ≠ [])) := by
  intro m env cenv kwargs hpd hav hlen
  refine ⟨?_, ?_, ?_⟩
  · intro handle tab d hstart
    rw [create_browser_fresh m env cenv (some "chrome") kwargs hpd hav hlen]
    exact create_browser_start_some m env cenv kwargs [] handle tab d hstart
  · intro handle d hstart
    rw [create_browser_fresh m env cenv (some "chrome") kwargs hpd hav hlen]
    exact create_browser_start_none m env cenv kwargs [] handle d hstart
  · intro bt inst hok
    rw [create_browser_fresh m env cenv (some bt) kwargs hpd hav hlen] at hok
    exact create_browser_start_ok_tabs _ _ _ _ _ _ _ hok

/-- C3 witness: on a fresh manager, a start returning tab handle 7 yields
an instance whose tab map is exactly {tab_1 ↦ 7} with tab_1 active,
registered under browser_1; a start returning no tab yields the
internal-invariant-violation error. -/
theorem C3_witness :
    (∃ inst,
       (emptyManager.create_browser defaultEnv C3cenv (some "chrome") emptyKwargs).result
           = .ok inst ∧
       inst.tabs = [("tab_1", 7)] ∧
       inst.active_tab_id = some "tab_1" ∧
       dictGet (emptyManager.create_browser defaultEnv C3cenv
           (some "chrome") emptyKwargs).state.browsers "browser_1" = some inst) ∧
    (emptyManager.create_browser defaultEnv C3cenvNoTab (some "chrome") emptyKwargs).result
        = .error (.internalInvariantViolation
          "PyDoll browser.start() did not return a tab") :=
  ⟨(C3_initial_tab_registration emptyManager defaultEnv C3cenv emptyKwargs
      rfl rfl (by decide)).1 0 7 2 rfl,
   (C3_initial_tab_registration emptyManager defaultEnv C3cenvNoTab emptyKwargs
      rfl rfl (by decide)).2.1 0 2 rfl⟩

/-- C2: under an empty pool, the active-instance map never exceeds the
configured maximum over any sequence of `create_browser` calls without
intervening `destroy_browser`; a call arriving at capacity first runs
idle reclamation (destroying exactly the instances whose idle time
exceeds the idle timeout) and, when the map is still at the maximum,
fails with `ResourceExhausted` naming the limit and creates nothing. -/
theorem C2_capacity_invariant :
    (∀ (m : BrowserManager) (calls : List CreateArgs),
        m.browser_pool.available = [] →
        m.browser_pool.in_use = [] →
        m.browsers.length ≤ m.max_browsers →
        (m.createMany calls).browsers.length ≤ m.max_browsers) ∧
    (∀ (m : BrowserManager) (env : Env) (cenv : CreateEnv) (bt : Option String)
        (kwargs : Kwargs),
        cenv.pydoll_available = true →
        m.browser_pool.available = [] →
        m.max_browsers ≤ m.browsers.length →
        m.max_browsers ≤ (m.cleanup_idle_browsers cenv.now).1.browsers.length →
        (m.create_browser env cenv bt kwargs).result
            = .error (.resourceExhausted m.max_browsers) ∧
        (m.create_browser env cenv bt kwargs).state
            = (m.cleanup_idle_browsers cenv.now).1) ∧
    (∀ (m : BrowserManager) (now : ℚ),
        (m.browsers.map (fun p => p.1)).Nodup →
        (m.cleanup_idle_browsers now).1.browsers
          = m.browsers.filter
              (fun p => !(decide (m.idle_timeout < p.2.get_idle_time now)))) := by
  refine ⟨?_, ?_, fun m now hnd => cleanup_idle_browsers_spec m now hnd⟩
  · intro m calls h1 h2 h3
    exact (createMany_invariant calls m h1 h2 h3).1
  · intro m env cenv bt kwargs hpd hav hcap hstill
    rw [create_browser_at_capacity m env cenv bt kwargs hpd hav hcap hstill]
    exact ⟨rfl, rfl⟩

/-- C2 witness: a manager at its maximum of 1 with a non-idle instance
refuses a second creation with ResourceExhausted naming the limit 1, and
its state is the (unchanged) post-reclamation state. -/
theorem C2_witness :
    (C2full.create_browser defaultEnv C2cenv none emptyKwargs).result
        = .error (.resourceExhausted 1) ∧
    (C2full.create_browser defaultEnv C2cenv none emptyKwargs).state
        = (C2full.cleanup_idle_browsers 0).1 := by
  have hfilter : C2full.browsers.filter
      (fun p => decide (C2full.idle_timeout < p.2.get_idle_time C2cenv.now)) = [] := by
    simp only [C2full, C2cenv, emptyManager, BrowserInstance.get_idle_time,
      BrowserInstance.init, List.filter]
    norm_num
  have hid : (C2full.cleanup_idle_browsers C2cenv.now).1 = C2full := by
    simp only [BrowserManager.cleanup_idle_browsers, hfilter, List.map_nil]
    rfl
  exact C2_capacity_invariant.2.1 C2full defaultEnv C2cenv none emptyKwargs
    rfl rfl (by decide) (by rw [hid]; decide)

end PydollMCP
